import Mathlib

/-!
Shallow embedding of the `NetworkController` component of the hub-and-spoke
network topology library, together with the collaborators it touches
(`IpAddressManager`, `FourTierNetworkHub`, `FourTierNetworkSpoke`, flow-log
routing).  The controller itself is translated statement by statement from the
TypeScript source; collaborators whose source is not part of the controller
file are modelled from the specification and are marked as such in their doc
comments.  Machine-level JavaScript behaviour that the controller relies on
(string identity of environment values, plain-object property lookup through
the prototype chain, `Set` insertion order) is made explicit.
-/

deriving instance DecidableEq for Except

/-- A stack environment value: either a concrete string known at definition
time or an unresolved token (a deferred value).  This mirrors how
`Token.isUnresolved` classifies the strings returned by `stack.account` and
`stack.region` in the source. -/
inductive Ident
  | concrete : String → Ident
  | token : Nat → Ident
  deriving DecidableEq, Repr

/-- Models `Token.isUnresolved` from the source: true exactly on token
values. -/
def Ident.isUnresolved : Ident → Bool
  | .concrete _ => false
  | .token _ => true

/-- The underlying JavaScript string of an environment value.  Token values
stringify to an encoding that is never a concrete account or region. -/
def Ident.str : Ident → String
  | .concrete s => s
  | .token n => "Token-" ++ toString n

/-- A construction scope, reduced to what the controller reads from it:
`Stack.of(scope).account`, `Stack.of(scope).region` and `scope.node.addr`. -/
structure Scope where
  account : Ident
  region : Ident
  addr : String
  deriving DecidableEq, Repr

/-- The flow-log record formats of `FlowLogFormat` used by the controller
(`FlowLogFormat.V5` is the constructor default). -/
inductive FlowLogFormat
  | v2
  | v3
  | v4
  | v5
  deriving DecidableEq, Repr

/-- Models `FlowLogDestination.toS3(bucket)`: a destination naming the bucket
it writes to. -/
inductive FlowLogDestination
  | toS3 : String → FlowLogDestination
  deriving DecidableEq, Repr

/-- One flow-log rule as the controller builds it: a destination together with
a log format definition. -/
structure FlowLogOptions where
  destination : FlowLogDestination
  logFormatDefinition : FlowLogFormat
  deriving DecidableEq, Repr

/-- The own property names of `Object.prototype` in JavaScript.  A plain
object literal `{}` inherits all of them, so the `in` operator answers true
for each of these keys and indexing with them yields a non-`undefined`
built-in value. -/
def jsProtoProps : List String :=
  ["constructor", "hasOwnProperty", "isPrototypeOf", "propertyIsEnumerable",
   "toLocaleString", "toString", "valueOf", "__defineGetter__",
   "__defineSetter__", "__lookupGetter__", "__lookupSetter__", "__proto__"]

/-- A JavaScript plain object used as a dictionary (the source's
`{ [region: string]: FourTierNetworkHub }`): a list of own properties in
insertion order, on top of the shared `Object.prototype`. -/
structure JsObj (α : Type) where
  entries : List (String × α)
  deriving DecidableEq, Repr

/-- Lookup among the own properties only. -/
def JsObj.ownLookup {α : Type} (o : JsObj α) (k : String) : Option α :=
  (o.entries.find? (fun p => p.1 == k)).map Prod.snd

/-- Own-property existence test (`Object.hasOwn`). -/
def JsObj.hasOwn {α : Type} (o : JsObj α) (k : String) : Bool :=
  (o.ownLookup k).isSome

/-- The JavaScript `in` operator on a plain object: consults the own
properties and then the prototype chain. -/
def JsObj.jsIn {α : Type} (o : JsObj α) (k : String) : Bool :=
  o.hasOwn k || decide (k ∈ jsProtoProps)

/-- The value produced by indexing a plain object: either a value the program
stored, or a built-in function inherited from `Object.prototype`. -/
inductive JsVal (α : Type)
  | user : α → JsVal α
  | builtin : String → JsVal α
  deriving DecidableEq, Repr

/-- Indexing `o[k]` on a plain object: an own property wins; otherwise the
prototype chain is consulted; otherwise the result is `undefined`, modelled
as `none`. -/
def JsObj.index {α : Type} (o : JsObj α) (k : String) : Option (JsVal α) :=
  match o.ownLookup k with
  | some v => some (JsVal.user v)
  | none => if k ∈ jsProtoProps then some (JsVal.builtin k) else none

/-- Property assignment `o[k] = v`: replaces an existing own property in
place, otherwise appends a new own property. -/
def JsObj.set {α : Type} (o : JsObj α) (k : String) (v : α) : JsObj α :=
  if o.hasOwn k then
    ⟨o.entries.map (fun p => if p.1 == k then (k, v) else p)⟩
  else
    ⟨o.entries ++ [(k, v)]⟩

/-- An address-range request as recorded against the allocator: the scope it
was issued under, the allocation key, and the requested netmask.  The request
itself stands for the `AddressRangeProvider` the allocator returns. -/
structure AllocationRequest where
  scopeAddr : String
  key : String
  netmask : Nat
  deriving DecidableEq, Repr

/-- Modelled from the spec: `FourTierNetworkSpoke` (its source is not part of
the controller file).  A spoke network carries the region it is deployed in,
a non-owning back-reference to its hub's region, and the configuration the
controller passed when creating it. -/
structure FourTierNetworkSpoke where
  region : String
  hubRegion : String
  availabilityZones : Option (List String)
  cidr : AllocationRequest
  flowLogs : List (String × FlowLogOptions)
  maxAzs : Option Nat
  deriving DecidableEq, Repr

/-- Modelled from the spec: `FourTierNetworkHub` (its source is not part of
the controller file).  A hub network carries the environment of the scope it
was created in, the configuration the controller passed, and the spokes it
owns. -/
structure FourTierNetworkHub where
  account : String
  region : String
  availabilityZones : Option (List String)
  cidr : AllocationRequest
  defaultTransitGatewayRouteTable : Option String
  flowLogs : List (String × FlowLogOptions)
  maxAzs : Option Nat
  spokes : List FourTierNetworkSpoke
  deriving DecidableEq, Repr

/-- The configuration the controller passes to `hub.addSpoke`. -/
structure AddSpokeProps where
  availabilityZones : Option (List String)
  cidr : AllocationRequest
  flowLogs : List (String × FlowLogOptions)
  maxAzs : Option Nat
  deriving DecidableEq, Repr

/-- Modelled from the spec: `FourTierNetworkHub.addSpoke` delegates spoke
creation to the owning hub — the spoke is created in the hub's own region,
receives the passed configuration, and is appended to the hub's owned
spokes. -/
def FourTierNetworkHub.addSpoke (hub : FourTierNetworkHub)
    (props : AddSpokeProps) : FourTierNetworkSpoke × FourTierNetworkHub :=
  let spoke : FourTierNetworkSpoke :=
    { region := hub.region
      hubRegion := hub.region
      availabilityZones := props.availabilityZones
      cidr := props.cidr
      flowLogs := props.flowLogs
      maxAzs := props.maxAzs }
  (spoke, { hub with spokes := hub.spokes ++ [spoke] })

/-- The errors the controller can raise, one per distinct `throw` site, plus
the runtime type error JavaScript raises when a non-function is called. -/
inductive NCError
  | unboundEnvironment
  | duplicateHub : String → NCError
  | missingHub : String → NCError
  | symbolicIdentifier
  | typeError
  deriving DecidableEq, Repr

/-- Constructor properties of `NetworkController` (`NetworkControllerProps`). -/
structure NetworkControllerProps where
  defaultNetmask : Option Nat
  flowLogBucket : Option String
  flowLogFormat : Option FlowLogFormat
  deriving DecidableEq, Repr

/-- The options accepted by `addSpoke` (`AddNetworkOptions`). -/
structure AddNetworkOptions where
  availabilityZones : Option (List String)
  maxAzs : Option Nat
  netmask : Option Nat
  deriving DecidableEq, Repr

/-- The options accepted by `addHub` (`AddHubOptions`). -/
structure AddHubOptions where
  availabilityZones : Option (List String)
  maxAzs : Option Nat
  netmask : Option Nat
  defaultTransitGatewayRouteTable : Option String
  deriving DecidableEq, Repr

/-- The state of one `NetworkController`: its own stack environment, the
input properties fixed at construction, the hub registry, the two
registration sets (JavaScript `Set`s, modelled as insertion-ordered lists),
and the ledger of requests issued to the address manager. -/
structure NetworkController where
  stackAccount : Ident
  stackRegion : Ident
  defaultNetmask : Nat
  flowLogFormat : FlowLogFormat
  flowLogBucket : String
  hubs : JsObj FourTierNetworkHub
  registeredAccounts : List Ident
  registeredRegions : List Ident
  allocations : List AllocationRequest
  deriving DecidableEq, Repr

/-- The outcome of one controller operation: the value returned or the error
thrown, together with the controller state after the call.  JavaScript
exceptions do not roll back mutations, so the state on an error is whatever
the operation had mutated before throwing. -/
structure StepOut (α : Type) where
  result : Except NCError α
  state : NetworkController
  deriving DecidableEq, Repr

/-- The `NetworkController` constructor: rejects a stack whose account or
region is unresolved, then initialises the registries, the input properties
with their defaults (`defaultNetmask ?? 16`, `flowLogFormat ?? V5`), and the
flow-log bucket (the supplied one, or an owned one named from the
controller's identity). -/
def NetworkController.construct (scope : Scope) (id : String)
    (props : NetworkControllerProps) : Except NCError NetworkController :=
  if scope.account.isUnresolved || scope.region.isUnresolved then
    .error .unboundEnvironment
  else
    .ok
      { stackAccount := scope.account
        stackRegion := scope.region
        defaultNetmask := props.defaultNetmask.getD 16
        flowLogFormat := props.flowLogFormat.getD .v5
        flowLogBucket := props.flowLogBucket.getD (id ++ "-flow-log-bucket")
        hubs := ⟨[]⟩
        registeredAccounts := []
        registeredRegions := []
        allocations := [] }

/-- `registerAccount`: no-op when the account is the controller's own or is
already registered; rejects tokens; otherwise inserts into the set. -/
def NetworkController.registerAccount (c : NetworkController) (account : Ident) :
    StepOut Unit :=
  if account = c.stackAccount then
    ⟨.ok (), c⟩
  else if account ∈ c.registeredAccounts then
    ⟨.ok (), c⟩
  else if account.isUnresolved then
    ⟨.error .symbolicIdentifier, c⟩
  else
    ⟨.ok (), { c with registeredAccounts := c.registeredAccounts ++ [account] }⟩

/-- `registerRegion`: no-op when the region is the controller's own or is
already registered; rejects tokens; otherwise inserts into the set. -/
def NetworkController.registerRegion (c : NetworkController) (region : Ident) :
    StepOut Unit :=
  if region = c.stackRegion then
    ⟨.ok (), c⟩
  else if region ∈ c.registeredRegions then
    ⟨.ok (), c⟩
  else if region.isUnresolved then
    ⟨.error .symbolicIdentifier, c⟩
  else
    ⟨.ok (), { c with registeredRegions := c.registeredRegions ++ [region] }⟩

/-- Modelled from the spec: `IpAddressManager.getVpcConfiguration` (its
source is not part of the controller file) — allocates an address range for
the given scope, key and netmask; recorded here as an entry in the
controller's allocation ledger, returned as the provider. -/
def NetworkController.getVpcConfiguration (c : NetworkController)
    (scope : Scope) (key : String) (netmask : Nat) :
    AllocationRequest × NetworkController :=
  let req : AllocationRequest := ⟨scope.addr, key, netmask⟩
  (req, { c with allocations := c.allocations ++ [req] })

/-- `addHub`: checks that the scope's environment is concrete, that no hub is
registered for the region (the JavaScript `in` operator on the plain-object
registry), registers the account and region, requests an address range with
`options.netmask ?? defaultNetmask`, creates the hub with the default
flow-log rule, and stores it in the registry keyed by region. -/
def NetworkController.addHub (c : NetworkController) (scope : Scope)
    (id : String) (options : AddHubOptions) : StepOut FourTierNetworkHub :=
  let scopeAccount := scope.account
  let scopeRegion := scope.region
  if scopeAccount.isUnresolved || scopeRegion.isUnresolved then
    ⟨.error .unboundEnvironment, c⟩
  else if c.hubs.jsIn scopeRegion.str then
    ⟨.error (.duplicateHub scopeRegion.str), c⟩
  else
    let r1 := c.registerAccount scopeAccount
    match r1.result with
    | .error e => ⟨.error e, r1.state⟩
    | .ok _ =>
      let r2 := r1.state.registerRegion scopeRegion
      match r2.result with
      | .error e => ⟨.error e, r2.state⟩
      | .ok _ =>
        let netmask := options.netmask.getD c.defaultNetmask
        let alloc := r2.state.getVpcConfiguration scope id netmask
        let hub : FourTierNetworkHub :=
          { account := scopeAccount.str
            region := scopeRegion.str
            availabilityZones := options.availabilityZones
            cidr := alloc.1
            defaultTransitGatewayRouteTable := options.defaultTransitGatewayRouteTable
            flowLogs := [("flow-log-default",
              { destination := FlowLogDestination.toS3 c.flowLogBucket
                logFormatDefinition := c.flowLogFormat })]
            maxAzs := options.maxAzs
            spokes := [] }
        ⟨.ok hub, { alloc.2 with hubs := alloc.2.hubs.set scopeRegion.str hub }⟩

/-- `addSpoke`: looks the hub up by unchecked indexing on the plain-object
registry, checks that the scope's environment is concrete and that the lookup
did not yield `undefined`, registers the account and region, requests an
address range under the derived key `id ++ "-" ++ scope.node.addr`, and
delegates spoke creation to the hub.  When the lookup yielded a value
inherited from `Object.prototype`, calling `addSpoke` on it raises a runtime
type error — after the registrations and the allocation have already
happened. -/
def NetworkController.addSpoke (c : NetworkController) (scope : Scope)
    (id : String) (options : AddNetworkOptions) : StepOut FourTierNetworkSpoke :=
  let scopeAccount := scope.account
  let scopeRegion := scope.region
  let hubLookup := c.hubs.index scopeRegion.str
  if scopeAccount.isUnresolved || scopeRegion.isUnresolved then
    ⟨.error .unboundEnvironment, c⟩
  else
    match hubLookup with
    | none => ⟨.error (.missingHub scopeRegion.str), c⟩
    | some hubVal =>
      let r1 := c.registerAccount scopeAccount
      match r1.result with
      | .error e => ⟨.error e, r1.state⟩
      | .ok _ =>
        let r2 := r1.state.registerRegion scopeRegion
        match r2.result with
        | .error e => ⟨.error e, r2.state⟩
        | .ok _ =>
          let netmask := options.netmask.getD c.defaultNetmask
          let alloc := r2.state.getVpcConfiguration scope (id ++ "-" ++ scope.addr) netmask
          match hubVal with
          | .builtin _ => ⟨.error .typeError, alloc.2⟩
          | .user hub =>
            let res := hub.addSpoke
              { availabilityZones := options.availabilityZones
                cidr := alloc.1
                flowLogs := [("flow-log-default",
                  { destination := FlowLogDestination.toS3 c.flowLogBucket
                    logFormatDefinition := c.flowLogFormat })]
                maxAzs := options.maxAzs }
            ⟨.ok res.1, { alloc.2 with hubs := alloc.2.hubs.set scopeRegion.str res.2 }⟩

/-- One call into the controller: the four mutating operations the claims
range over. -/
inductive Op
  | addHub : Scope → String → AddHubOptions → Op
  | addSpoke : Scope → String → AddNetworkOptions → Op
  | regAccount : Ident → Op
  | regRegion : Ident → Op
  deriving Repr

/-- The controller state after one operation, whether it returned or threw. -/
def applyOp (c : NetworkController) : Op → NetworkController
  | .addHub s i o => (c.addHub s i o).state
  | .addSpoke s i o => (c.addSpoke s i o).state
  | .regAccount a => (c.registerAccount a).state
  | .regRegion r => (c.registerRegion r).state

/-- The controller state after a sequence of operations. -/
def runOps (c : NetworkController) (ops : List Op) : NetworkController :=
  ops.foldl applyOp c

/-- A concrete scope with a fully qualified environment, used to exercise the
definitions on closed inputs. -/
def sampleScope : Scope :=
  ⟨.concrete "123456789012", .concrete "us-east-1", "root"⟩

/-- Empty constructor properties (all defaults). -/
def sampleProps : NetworkControllerProps := ⟨none, none, none⟩

/-- The controller produced by `construct` on `sampleScope` with default
properties. -/
def sampleController : NetworkController :=
  { stackAccount := .concrete "123456789012"
    stackRegion := .concrete "us-east-1"
    defaultNetmask := 16
    flowLogFormat := .v5
    flowLogBucket := "net-controller-flow-log-bucket"
    hubs := ⟨[]⟩
    registeredAccounts := []
    registeredRegions := []
    allocations := [] }

/-- A second concrete scope, targeting another account and region. -/
def sampleHubScope : Scope :=
  ⟨.concrete "111111111111", .concrete "eu-west-1", "addr1"⟩

/-- Empty `addHub` options. -/
def noHubOptions : AddHubOptions := ⟨none, none, none, none⟩

/-- Empty `addSpoke` options. -/
def noNetOptions : AddNetworkOptions := ⟨none, none, none⟩

/-- The hub created by `addHub` on `sampleController` with `sampleHubScope`. -/
def theHub : FourTierNetworkHub :=
  { account := "111111111111"
    region := "eu-west-1"
    availabilityZones := none
    cidr := ⟨"addr1", "hub1", 16⟩
    defaultTransitGatewayRouteTable := none
    flowLogs := [("flow-log-default",
      ⟨FlowLogDestination.toS3 "net-controller-flow-log-bucket", FlowLogFormat.v5⟩)]
    maxAzs := none
    spokes := [] }

/-- The controller state after that `addHub` call. -/
def afterHub : NetworkController :=
  (sampleController.addHub sampleHubScope "hub1" noHubOptions).state

/-- A scope in the hub's region, used for a successful `addSpoke`. -/
def spokeScope : Scope :=
  ⟨.concrete "111111111111", .concrete "eu-west-1", "addr3"⟩

/-- The spoke created by `addSpoke` on `afterHub` with `spokeScope`. -/
def theSpoke : FourTierNetworkSpoke :=
  { region := "eu-west-1"
    hubRegion := "eu-west-1"
    availabilityZones := none
    cidr := ⟨"addr3", "spoke1-addr3", 16⟩
    flowLogs := [("flow-log-default",
      ⟨FlowLogDestination.toS3 "net-controller-flow-log-bucket", FlowLogFormat.v5⟩)]
    maxAzs := none }

/-- The controller state after that `addSpoke` call. -/
def afterSpoke : NetworkController :=
  (afterHub.addSpoke spokeScope "spoke1" noNetOptions).state

/-- A sample operation sequence mixing successful calls, failing calls, and
the prototype-chain corner case. -/
def sampleOps : List Op :=
  [.addHub sampleHubScope "hub1" noHubOptions,
   .addSpoke spokeScope "spoke1" noNetOptions,
   .regAccount (.concrete "123456789012"),
   .regAccount (.token 7),
   .regRegion (.concrete "us-east-1"),
   .addSpoke ⟨.concrete "333333333333", .concrete "toString", "addr9"⟩ "spokeX" noNetOptions]

/-- The registration-set invariant of a controller state: neither set
contains the controller's own environment value and neither contains an
unresolved value. -/
def GoodState (c : NetworkController) : Prop :=
  (∀ a ∈ c.registeredAccounts, a ≠ c.stackAccount ∧ a.isUnresolved = false) ∧
  (∀ r ∈ c.registeredRegions, r ≠ c.stackRegion ∧ r.isUnresolved = false)

theorem registerAccount_stackAccount (c : NetworkController) (a : Ident) :
    (c.registerAccount a).state.stackAccount = c.stackAccount := by
  unfold NetworkController.registerAccount; split_ifs <;> rfl

theorem registerAccount_stackRegion (c : NetworkController) (a : Ident) :
    (c.registerAccount a).state.stackRegion = c.stackRegion := by
  unfold NetworkController.registerAccount; split_ifs <;> rfl

theorem registerAccount_defaultNetmask (c : NetworkController) (a : Ident) :
    (c.registerAccount a).state.defaultNetmask = c.defaultNetmask := by
  unfold NetworkController.registerAccount; split_ifs <;> rfl

theorem registerAccount_flowLogFormat (c : NetworkController) (a : Ident) :
    (c.registerAccount a).state.flowLogFormat = c.flowLogFormat := by
  unfold NetworkController.registerAccount; split_ifs <;> rfl

theorem registerAccount_flowLogBucket (c : NetworkController) (a : Ident) :
    (c.registerAccount a).state.flowLogBucket = c.flowLogBucket := by
  unfold NetworkController.registerAccount; split_ifs <;> rfl

theorem registerAccount_hubs (c : NetworkController) (a : Ident) :
    (c.registerAccount a).state.hubs = c.hubs := by
  unfold NetworkController.registerAccount; split_ifs <;> rfl

theorem registerAccount_registeredRegions (c : NetworkController) (a : Ident) :
    (c.registerAccount a).state.registeredRegions = c.registeredRegions := by
  unfold NetworkController.registerAccount; split_ifs <;> rfl

theorem registerAccount_allocations (c : NetworkController) (a : Ident) :
    (c.registerAccount a).state.allocations = c.allocations := by
  unfold NetworkController.registerAccount; split_ifs <;> rfl

theorem registerRegion_stackAccount (c : NetworkController) (r : Ident) :
    (c.registerRegion r).state.stackAccount = c.stackAccount := by
  unfold NetworkController.registerRegion; split_ifs <;> rfl

theorem registerRegion_stackRegion (c : NetworkController) (r : Ident) :
    (c.registerRegion r).state.stackRegion = c.stackRegion := by
  unfold NetworkController.registerRegion; split_ifs <;> rfl

theorem registerRegion_defaultNetmask (c : NetworkController) (r : Ident) :
    (c.registerRegion r).state.defaultNetmask = c.defaultNetmask := by
  unfold NetworkController.registerRegion; split_ifs <;> rfl

theorem registerRegion_flowLogFormat (c : NetworkController) (r : Ident) :
    (c.registerRegion r).state.flowLogFormat = c.flowLogFormat := by
  unfold NetworkController.registerRegion; split_ifs <;> rfl

theorem registerRegion_flowLogBucket (c : NetworkController) (r : Ident) :
    (c.registerRegion r).state.flowLogBucket = c.flowLogBucket := by
  unfold NetworkController.registerRegion; split_ifs <;> rfl

theorem registerRegion_hubs (c : NetworkController) (r : Ident) :
    (c.registerRegion r).state.hubs = c.hubs := by
  unfold NetworkController.registerRegion; split_ifs <;> rfl

theorem registerRegion_registeredAccounts (c : NetworkController) (r : Ident) :
    (c.registerRegion r).state.registeredAccounts = c.registeredAccounts := by
  unfold NetworkController.registerRegion; split_ifs <;> rfl

theorem registerRegion_allocations (c : NetworkController) (r : Ident) :
    (c.registerRegion r).state.allocations = c.allocations := by
  unfold NetworkController.registerRegion; split_ifs <;> rfl

theorem registerAccount_noop_of_mem (c : NetworkController) (a : Ident)
    (hown : a ≠ c.stackAccount) (hmem : a ∈ c.registeredAccounts) :
    c.registerAccount a = ⟨.ok (), c⟩ := by
  unfold NetworkController.registerAccount
  rw [if_neg hown, if_pos hmem]

theorem registerAccount_insert (c : NetworkController) (a : Ident)
    (hown : a ≠ c.stackAccount) (hmem : a ∉ c.registeredAccounts)
    (hconc : a.isUnresolved = false) :
    c.registerAccount a =
      ⟨.ok (), { c with registeredAccounts := c.registeredAccounts ++ [a] }⟩ := by
  unfold NetworkController.registerAccount
  rw [if_neg hown, if_neg hmem, if_neg (by simp [hconc])]

theorem JsObj.find?_eq_none_of_hasOwn_false {α : Type} (o : JsObj α) (k : String)
    (h : o.hasOwn k = false) : o.entries.find? (fun p => p.1 == k) = none := by
  unfold JsObj.hasOwn JsObj.ownLookup at h
  cases hf : o.entries.find? (fun p => p.1 == k) with
  | none => rfl
  | some x => rw [hf] at h; simp at h

theorem JsObj.ownLookup_set_fresh {α : Type} (o : JsObj α) (k : String) (v : α)
    (h : o.hasOwn k = false) : (o.set k v).ownLookup k = some v := by
  unfold JsObj.set
  rw [if_neg (by simp [h])]
  unfold JsObj.ownLookup
  simp only [List.find?_append, JsObj.find?_eq_none_of_hasOwn_false o k h]
  simp

theorem JsObj.hasOwn_false_of_jsIn_false {α : Type} (o : JsObj α) (k : String)
    (h : o.jsIn k = false) : o.hasOwn k = false := by
  unfold JsObj.jsIn at h
  exact (Bool.or_eq_false_iff.mp h).1

theorem JsObj.jsIn_of_ownLookup {α : Type} (o : JsObj α) (k : String) (v : α)
    (h : o.ownLookup k = some v) : o.jsIn k = true := by
  unfold JsObj.jsIn JsObj.hasOwn
  rw [h]
  rfl

theorem JsObj.ownLookup_of_index_user {α : Type} (o : JsObj α) (k : String)
    (v : α) (h : o.index k = some (JsVal.user v)) : o.ownLookup k = some v := by
  unfold JsObj.index at h
  split at h
  · rename_i w hl
    simp only [Option.some.injEq, JsVal.user.injEq] at h
    rw [hl, h]
  · split at h <;> simp at h

theorem addHub_ok_shape (c : NetworkController) (s : Scope) (i : String)
    (o : AddHubOptions) (hub : FourTierNetworkHub) (c' : NetworkController)
    (h : c.addHub s i o = ⟨.ok hub, c'⟩) :
    s.account.isUnresolved = false ∧ s.region.isUnresolved = false ∧
    c.hubs.jsIn s.region.str = false ∧
    c'.hubs = c.hubs.set s.region.str hub ∧
    hub.region = s.region.str ∧
    hub.flowLogs = [("flow-log-default",
      ⟨FlowLogDestination.toS3 c.flowLogBucket, c.flowLogFormat⟩)] := by
  simp only [NetworkController.addHub] at h
  split at h
  · simp at h
  · rename_i hguard
    split at h
    · simp at h
    · rename_i hdup
      split at h
      · simp at h
      · split at h
        · simp at h
        · injection h with hres hstate
          injection hres with hhub
          subst hhub
          subst hstate
          simp only [Bool.or_eq_true, not_or, Bool.not_eq_true] at hguard
          refine ⟨hguard.1, hguard.2, by simpa using hdup, ?_, rfl, rfl⟩
          simp [NetworkController.getVpcConfiguration, registerRegion_hubs,
            registerAccount_hubs]

theorem addHub_hubs_unchanged_or_ok (d : NetworkController) (s : Scope)
    (i : String) (o : AddHubOptions) :
    (∃ hub, (d.addHub s i o).result = .ok hub) ∨
    (d.addHub s i o).state.hubs = d.hubs := by
  simp only [NetworkController.addHub]
  split
  · right; rfl
  · split
    · right; rfl
    · split
      · right; simp [registerAccount_hubs]
      · split
        · right; simp [registerRegion_hubs, registerAccount_hubs]
        · left; exact ⟨_, rfl⟩

theorem addHub_error_hubs (d : NetworkController) (s : Scope) (i : String)
    (o : AddHubOptions) (e : NCError)
    (h : (d.addHub s i o).result = .error e) :
    (d.addHub s i o).state.hubs = d.hubs := by
  rcases addHub_hubs_unchanged_or_ok d s i o with ⟨hub, hok⟩ | hunch
  · rw [h] at hok; cases hok
  · exact hunch

/-- C1: after a successful `addHub` for a region, any further `addHub` whose
scope resolves to that region fails with `DuplicateHubError` while the
registry still maps the region to the original hub; and every failed
`addHub` leaves the hub registry unchanged. -/
theorem C1_addHub_duplicate_atomic (c : NetworkController) (s1 : Scope)
    (i1 : String) (o1 : AddHubOptions) (hub : FourTierNetworkHub)
    (c1 : NetworkController) (h1 : c.addHub s1 i1 o1 = ⟨.ok hub, c1⟩) :
    (∀ s2 : Scope, ∀ i2 o2, s2.region = s1.region →
      s2.account.isUnresolved = false →
      (c1.addHub s2 i2 o2).result = .error (.duplicateHub s1.region.str) ∧
      (c1.addHub s2 i2 o2).state.hubs.ownLookup s1.region.str = some hub) ∧
    (∀ (d : NetworkController) (s : Scope) (i : String) (o : AddHubOptions)
        (e : NCError), (d.addHub s i o).result = .error e →
      (d.addHub s i o).state.hubs = d.hubs) := by
  obtain ⟨ha1, hr1, hfresh, hhubs, -, -⟩ := addHub_ok_shape c s1 i1 o1 hub c1 h1
  constructor
  · intro s2 i2 o2 hreg hacct
    have hlook : c1.hubs.ownLookup s1.region.str = some hub := by
      rw [hhubs]
      exact JsObj.ownLookup_set_fresh _ _ _
        (JsObj.hasOwn_false_of_jsIn_false _ _ hfresh)
    have hin : c1.hubs.jsIn s1.region.str = true :=
      JsObj.jsIn_of_ownLookup _ _ _ hlook
    have heval : c1.addHub s2 i2 o2 =
        ⟨.error (.duplicateHub s1.region.str), c1⟩ := by
      simp only [NetworkController.addHub]
      rw [hreg, hacct, hr1, hin]
      simp
    rw [heval]
    exact ⟨rfl, hlook⟩
  · exact fun d s i o e h => addHub_error_hubs d s i o e h

/-- Witness for C1 at a concrete pair of `addHub` calls. -/
theorem C1_addHub_duplicate_atomic_witness :
    (afterHub.addHub ⟨.concrete "222222222222", .concrete "eu-west-1", "addr2"⟩
        "hub2" noHubOptions).result =
      .error (.duplicateHub sampleHubScope.region.str) ∧
    (afterHub.addHub ⟨.concrete "222222222222", .concrete "eu-west-1", "addr2"⟩
        "hub2" noHubOptions).state.hubs.ownLookup sampleHubScope.region.str =
      some theHub :=
  (C1_addHub_duplicate_atomic sampleController sampleHubScope "hub1"
      noHubOptions theHub afterHub (by decide)).1
    ⟨.concrete "222222222222", .concrete "eu-west-1", "addr2"⟩ "hub2"
    noHubOptions rfl (by decide)

/-- C2 as stated is false on the code: for the region "toString", which has
no registered hub, `addSpoke` does not fail with `MissingHubError` — the
unchecked plain-object lookup finds `Object.prototype.toString`, so the call
proceeds, allocates an address range, registers the account and region, and
only then dies with a runtime type error. -/
theorem C2_counterexample :
    (sampleController.addSpoke
        ⟨.concrete "111111111111", .concrete "toString", "addr1"⟩ "spoke1"
        noNetOptions).result ≠ .error (.missingHub "toString") ∧
    (sampleController.addSpoke
        ⟨.concrete "111111111111", .concrete "toString", "addr1"⟩ "spoke1"
        noNetOptions).state.allocations ≠ [] := by
  decide

/-- C2 amended: for every region that is not an `Object.prototype` property
name and for which no hub is registered, `addSpoke` with a scope resolving to
that region fails with `MissingHubError` and the controller state — hence the
allocation ledger and both registration sets — is unchanged. -/
theorem C2_addSpoke_missing_hub (c : NetworkController) (s : Scope)
    (i : String) (o : AddNetworkOptions)
    (hacct : s.account.isUnresolved = false)
    (hreg : s.region.isUnresolved = false)
    (hnohub : c.hubs.ownLookup s.region.str = none)
    (hnp : s.region.str ∉ jsProtoProps) :
    c.addSpoke s i o = ⟨.error (.missingHub s.region.str), c⟩ := by
  have hidx : c.hubs.index s.region.str = none := by
    unfold JsObj.index
    rw [hnohub]
    simp [hnp]
  simp only [NetworkController.addSpoke]
  rw [hacct, hreg, hidx]
  simp

/-- Witness for the amended C2 at a concrete hub-less region. -/
theorem C2_addSpoke_missing_hub_witness :
    sampleController.addSpoke
        ⟨.concrete "111111111111", .concrete "eu-west-1", "addr1"⟩ "spoke1"
        noNetOptions =
      ⟨.error (.missingHub (Ident.concrete "eu-west-1").str),
        sampleController⟩ :=
  C2_addSpoke_missing_hub sampleController
    ⟨.concrete "111111111111", .concrete "eu-west-1", "addr1"⟩ "spoke1"
    noNetOptions (by decide) (by decide) (by decide) (by decide)

/-- C10: for the region name "toString" — an `Object.prototype` property —
with no hub ever registered, `addHub` fails with the duplicate-hub error and
`addSpoke` does not fail with the missing-hub error, because both membership
tests consult the prototype chain. -/
theorem C10_prototype_chain :
    (sampleController.addHub
        ⟨.concrete "111111111111", .concrete "toString", "addr1"⟩ "hub1"
        noHubOptions).result = .error (.duplicateHub "toString") ∧
    (sampleController.addSpoke
        ⟨.concrete "111111111111", .concrete "toString", "addr2"⟩ "spoke1"
        noNetOptions).result ≠ .error (.missingHub "toString") := by
  decide

/-- C6: construction fails with `UnboundEnvironmentError` exactly when the
stack's own account or region is unresolved; on success both recorded
environment values are concrete. -/
theorem C6_construct_unbound_iff (scope : Scope) (id : String)
    (props : NetworkControllerProps) :
    (NetworkController.construct scope id props = .error .unboundEnvironment ↔
      (scope.account.isUnresolved || scope.region.isUnresolved) = true) ∧
    (∀ c, NetworkController.construct scope id props = .ok c →
      c.stackAccount.isUnresolved = false ∧ c.stackRegion.isUnresolved = false) := by
  unfold NetworkController.construct
  split_ifs with h
  · refine ⟨⟨fun _ => h, fun _ => rfl⟩, fun c hc => ?_⟩
    cases hc
  · simp only [Bool.or_eq_true, not_or, Bool.not_eq_true] at h
    refine ⟨⟨fun he => ?_, fun hb => by simp [h.1, h.2] at hb⟩, ?_⟩
    · cases he
    · intro c hc
      cases hc
      exact ⟨h.1, h.2⟩

/-- Witness for C6 at a concrete construction. -/
theorem C6_construct_unbound_iff_witness :
    sampleController.stackAccount.isUnresolved = false ∧
    sampleController.stackRegion.isUnresolved = false :=
  (C6_construct_unbound_iff sampleScope "net-controller" sampleProps).2
    sampleController (by decide)

/-- C5: registering an unresolved account that is neither the controller's
own account nor already present fails with `SymbolicIdentifierError` and
leaves the registered-account set exactly as it was. -/
theorem C5_registerAccount_symbolic (c : NetworkController) (a : Ident)
    (hsym : a.isUnresolved = true) (hown : a ≠ c.stackAccount)
    (hmem : a ∉ c.registeredAccounts) :
    (c.registerAccount a).result = .error .symbolicIdentifier ∧
    (c.registerAccount a).state.registeredAccounts = c.registeredAccounts := by
  unfold NetworkController.registerAccount
  rw [if_neg hown, if_neg hmem, if_pos hsym]
  exact ⟨rfl, rfl⟩

/-- Witness for C5 at a concrete token account. -/
theorem C5_registerAccount_symbolic_witness :
    (sampleController.registerAccount (.token 3)).result =
      .error .symbolicIdentifier ∧
    (sampleController.registerAccount (.token 3)).state.registeredAccounts =
      sampleController.registeredAccounts :=
  C5_registerAccount_symbolic sampleController (.token 3) (by decide)
    (by decide) (by decide)

/-- C4: registering the same concrete non-own account twice leaves exactly
one entry for it in the set, and the second call changes nothing. -/
theorem C4_registerAccount_idempotent (c : NetworkController) (a : Ident)
    (hconc : a.isUnresolved = false) (hown : a ≠ c.stackAccount)
    (hcount : c.registeredAccounts.count a ≤ 1) :
    ((c.registerAccount a).state.registerAccount a).state.registeredAccounts.count a = 1 ∧
    ((c.registerAccount a).state.registerAccount a).state = (c.registerAccount a).state := by
  by_cases hmem : a ∈ c.registeredAccounts
  · have h1 : c.registerAccount a = ⟨.ok (), c⟩ :=
      registerAccount_noop_of_mem c a hown hmem
    rw [h1, h1]
    exact ⟨Nat.le_antisymm hcount (List.count_pos_iff.mpr hmem), rfl⟩
  · have h1 : c.registerAccount a =
        ⟨.ok (), { c with registeredAccounts := c.registeredAccounts ++ [a] }⟩ :=
      registerAccount_insert c a hown hmem hconc
    have hmem1 : a ∈ c.registeredAccounts ++ [a] :=
      List.mem_append_right _ (List.mem_singleton_self a)
    have h2 : ({ c with registeredAccounts := c.registeredAccounts ++ [a] } :
        NetworkController).registerAccount a =
        ⟨.ok (), { c with registeredAccounts := c.registeredAccounts ++ [a] }⟩ :=
      registerAccount_noop_of_mem _ a hown hmem1
    rw [h1, h2]
    have hz : c.registeredAccounts.count a = 0 := List.count_eq_zero.mpr hmem
    simp [List.count_append, hz]

/-- Witness for C4 at a concrete account. -/
theorem C4_registerAccount_idempotent_witness :
    ((sampleController.registerAccount (.concrete "222222222222")).state.registerAccount
        (.concrete "222222222222")).state.registeredAccounts.count
      (.concrete "222222222222") = 1 ∧
    ((sampleController.registerAccount (.concrete "222222222222")).state.registerAccount
        (.concrete "222222222222")).state =
      (sampleController.registerAccount (.concrete "222222222222")).state :=
  C4_registerAccount_idempotent sampleController (.concrete "222222222222")
    (by decide) (by decide) (by decide)

/-- C7: a successful `addHub` issues exactly one allocation request, whose
netmask is the caller's when one is supplied and the controller's
`defaultNetmask` otherwise. -/
theorem C7_addHub_netmask (c : NetworkController) (s : Scope) (i : String)
    (o : AddHubOptions) (hub : FourTierNetworkHub) (c' : NetworkController)
    (h : c.addHub s i o = ⟨.ok hub, c'⟩) :
    ∃ req : AllocationRequest,
      c'.allocations = c.allocations ++ [req] ∧
      (∀ m, o.netmask = some m → req.netmask = m) ∧
      (o.netmask = none → req.netmask = c.defaultNetmask) := by
  refine ⟨⟨s.addr, i, o.netmask.getD c.defaultNetmask⟩, ?_, ?_, ?_⟩
  · simp only [NetworkController.addHub] at h
    split at h
    · simp at h
    · split at h
      · simp at h
      · split at h
        · simp at h
        · split at h
          · simp at h
          · injection h with hres hstate
            rw [← hstate]
            simp only [NetworkController.getVpcConfiguration]
            simp [registerRegion_allocations, registerAccount_allocations]
  · intro m hm; simp [hm]
  · intro hm; simp [hm]

/-- Witness for C7 at a concrete `addHub` call. -/
theorem C7_addHub_netmask_witness :
    ∃ req : AllocationRequest,
      afterHub.allocations = sampleController.allocations ++ [req] ∧
      (∀ m, noHubOptions.netmask = some m → req.netmask = m) ∧
      (noHubOptions.netmask = none → req.netmask = sampleController.defaultNetmask) :=
  C7_addHub_netmask sampleController sampleHubScope "hub1" noHubOptions
    theHub afterHub (by decide)

theorem addSpoke_ok_shape (c : NetworkController) (s : Scope) (i : String)
    (o : AddNetworkOptions) (sp : FourTierNetworkSpoke) (c' : NetworkController)
    (h : c.addSpoke s i o = ⟨.ok sp, c'⟩) :
    ∃ hub, c.hubs.index s.region.str = some (JsVal.user hub) ∧
      sp.region = hub.region ∧
      sp.flowLogs = [("flow-log-default",
        ⟨FlowLogDestination.toS3 c.flowLogBucket, c.flowLogFormat⟩)] := by
  simp only [NetworkController.addSpoke] at h
  split at h
  · simp at h
  · split at h
    · simp at h
    · rename_i hubVal hidx
      split at h
      · simp at h
      · split at h
        · simp at h
        · cases hubVal with
          | builtin k => simp at h
          | user hubv =>
            injection h with hres hstate
            injection hres with hsp
            refine ⟨hubv, hidx, ?_, ?_⟩
            · rw [← hsp]
              rfl
            · rw [← hsp]
              rfl

/-- C9: a successful `addSpoke` returns a spoke whose region equals the
region of the hub registered under the region the scope resolves to. -/
theorem C9_spoke_region (c : NetworkController) (s : Scope) (i : String)
    (o : AddNetworkOptions) (sp : FourTierNetworkSpoke)
    (c' : NetworkController) (h : c.addSpoke s i o = ⟨.ok sp, c'⟩) :
    ∃ hub, c.hubs.ownLookup s.region.str = some hub ∧
      sp.region = hub.region := by
  obtain ⟨hub, hidx, hregion, -⟩ := addSpoke_ok_shape c s i o sp c' h
  exact ⟨hub, JsObj.ownLookup_of_index_user _ _ _ hidx, hregion⟩

/-- Witness for C9 at a concrete successful `addSpoke`. -/
theorem C9_spoke_region_witness :
    ∃ hub, afterHub.hubs.ownLookup spokeScope.region.str = some hub ∧
      theSpoke.region = hub.region :=
  C9_spoke_region afterHub spokeScope "spoke1" noNetOptions theSpoke
    afterSpoke (by decide)

theorem addHub_state_fixed (c : NetworkController) (s : Scope) (i : String)
    (o : AddHubOptions) :
    (c.addHub s i o).state.stackAccount = c.stackAccount ∧
    (c.addHub s i o).state.stackRegion = c.stackRegion ∧
    (c.addHub s i o).state.flowLogBucket = c.flowLogBucket ∧
    (c.addHub s i o).state.flowLogFormat = c.flowLogFormat := by
  simp only [NetworkController.addHub]
  split
  · simp
  · split
    · simp
    · split
      · simp [registerAccount_stackAccount, registerAccount_stackRegion,
          registerAccount_flowLogBucket, registerAccount_flowLogFormat]
      · split
        · simp [registerRegion_stackAccount, registerRegion_stackRegion,
            registerRegion_flowLogBucket, registerRegion_flowLogFormat,
            registerAccount_stackAccount, registerAccount_stackRegion,
            registerAccount_flowLogBucket, registerAccount_flowLogFormat]
        · simp [NetworkController.getVpcConfiguration,
            registerRegion_stackAccount, registerRegion_stackRegion,
            registerRegion_flowLogBucket, registerRegion_flowLogFormat,
            registerAccount_stackAccount, registerAccount_stackRegion,
            registerAccount_flowLogBucket, registerAccount_flowLogFormat]

theorem addSpoke_state_fixed (c : NetworkController) (s : Scope) (i : String)
    (o : AddNetworkOptions) :
    (c.addSpoke s i o).state.stackAccount = c.stackAccount ∧
    (c.addSpoke s i o).state.stackRegion = c.stackRegion ∧
    (c.addSpoke s i o).state.flowLogBucket = c.flowLogBucket ∧
    (c.addSpoke s i o).state.flowLogFormat = c.flowLogFormat := by
  simp only [NetworkController.addSpoke]
  split
  · simp
  · split
    · simp
    · split
      · simp [registerAccount_stackAccount, registerAccount_stackRegion,
          registerAccount_flowLogBucket, registerAccount_flowLogFormat]
      · split
        · simp [registerRegion_stackAccount, registerRegion_stackRegion,
            registerRegion_flowLogBucket, registerRegion_flowLogFormat,
            registerAccount_stackAccount, registerAccount_stackRegion,
            registerAccount_flowLogBucket, registerAccount_flowLogFormat]
        · split <;>
            simp [NetworkController.getVpcConfiguration,
              registerRegion_stackAccount, registerRegion_stackRegion,
              registerRegion_flowLogBucket, registerRegion_flowLogFormat,
              registerAccount_stackAccount, registerAccount_stackRegion,
              registerAccount_flowLogBucket, registerAccount_flowLogFormat]

theorem GoodState.registerAccount {c : NetworkController} (hc : GoodState c)
    (a : Ident) : GoodState (c.registerAccount a).state := by
  unfold NetworkController.registerAccount
  split_ifs with h1 h2 h3
  · exact hc
  · exact hc
  · exact hc
  · refine ⟨?_, hc.2⟩
    intro x hx
    rcases List.mem_append.mp hx with hx | hx
    · exact hc.1 x hx
    · rw [List.mem_singleton.mp hx]
      exact ⟨h1, by simpa using h3⟩

theorem GoodState.registerRegion {c : NetworkController} (hc : GoodState c)
    (r : Ident) : GoodState (c.registerRegion r).state := by
  unfold NetworkController.registerRegion
  split_ifs with h1 h2 h3
  · exact hc
  · exact hc
  · exact hc
  · refine ⟨hc.1, ?_⟩
    intro x hx
    rcases List.mem_append.mp hx with hx | hx
    · exact hc.2 x hx
    · rw [List.mem_singleton.mp hx]
      exact ⟨h1, by simpa using h3⟩

theorem GoodState.addHub {c : NetworkController} (hc : GoodState c)
    (s : Scope) (i : String) (o : AddHubOptions) :
    GoodState (c.addHub s i o).state := by
  simp only [NetworkController.addHub]
  split
  · exact hc
  · split
    · exact hc
    · split
      · exact hc.registerAccount _
      · split
        · exact (hc.registerAccount _).registerRegion _
        · exact (hc.registerAccount _).registerRegion _

theorem GoodState.addSpoke {c : NetworkController} (hc : GoodState c)
    (s : Scope) (i : String) (o : AddNetworkOptions) :
    GoodState (c.addSpoke s i o).state := by
  simp only [NetworkController.addSpoke]
  split
  · exact hc
  · split
    · exact hc
    · split
      · exact hc.registerAccount _
      · split
        · exact (hc.registerAccount _).registerRegion _
        · split
          · exact (hc.registerAccount _).registerRegion _
          · exact (hc.registerAccount _).registerRegion _

theorem GoodState.applyOp {c : NetworkController} (hc : GoodState c)
    (op : Op) : GoodState (applyOp c op) := by
  cases op with
  | addHub s i o => exact hc.addHub s i o
  | addSpoke s i o => exact hc.addSpoke s i o
  | regAccount a => exact hc.registerAccount a
  | regRegion r => exact hc.registerRegion r

theorem GoodState.runOps {c : NetworkController} (hc : GoodState c)
    (ops : List Op) : GoodState (runOps c ops) := by
  induction ops generalizing c with
  | nil => exact hc
  | cons op ops ih => exact ih (hc.applyOp op)

theorem applyOp_fixed (c : NetworkController) (op : Op) :
    (applyOp c op).stackAccount = c.stackAccount ∧
    (applyOp c op).stackRegion = c.stackRegion ∧
    (applyOp c op).flowLogBucket = c.flowLogBucket ∧
    (applyOp c op).flowLogFormat = c.flowLogFormat := by
  cases op with
  | addHub s i o => exact addHub_state_fixed c s i o
  | addSpoke s i o => exact addSpoke_state_fixed c s i o
  | regAccount a =>
    exact ⟨registerAccount_stackAccount c a, registerAccount_stackRegion c a,
      registerAccount_flowLogBucket c a, registerAccount_flowLogFormat c a⟩
  | regRegion r =>
    exact ⟨registerRegion_stackAccount c r, registerRegion_stackRegion c r,
      registerRegion_flowLogBucket c r, registerRegion_flowLogFormat c r⟩

theorem runOps_fixed (c : NetworkController) (ops : List Op) :
    (runOps c ops).stackAccount = c.stackAccount ∧
    (runOps c ops).stackRegion = c.stackRegion ∧
    (runOps c ops).flowLogBucket = c.flowLogBucket ∧
    (runOps c ops).flowLogFormat = c.flowLogFormat := by
  induction ops generalizing c with
  | nil => exact ⟨rfl, rfl, rfl, rfl⟩
  | cons op ops ih =>
    have h1 := applyOp_fixed c op
    have h2 := ih (applyOp c op)
    exact ⟨h2.1.trans h1.1, h2.2.1.trans h1.2.1, h2.2.2.1.trans h1.2.2.1,
      h2.2.2.2.trans h1.2.2.2⟩

/-- C3: in every state reachable from a freshly constructed controller by
`addHub`, `addSpoke`, `registerAccount` and `registerRegion` calls, the
registered-account set never contains the controller's own account, the
registered-region set never contains its own region, and neither set
contains an unresolved value. -/
theorem C3_registration_invariant (scope0 : Scope) (id0 : String)
    (props : NetworkControllerProps) (c0 : NetworkController)
    (h0 : NetworkController.construct scope0 id0 props = .ok c0)
    (ops : List Op) :
    c0.stackAccount ∉ (runOps c0 ops).registeredAccounts ∧
    c0.stackRegion ∉ (runOps c0 ops).registeredRegions ∧
    (∀ a ∈ (runOps c0 ops).registeredAccounts, a.isUnresolved = false) ∧
    (∀ r ∈ (runOps c0 ops).registeredRegions, r.isUnresolved = false) := by
  have hg0 : GoodState c0 := by
    unfold NetworkController.construct at h0
    split_ifs at h0
    cases h0
    exact ⟨fun a ha => absurd ha (List.not_mem_nil a),
      fun r hr => absurd hr (List.not_mem_nil r)⟩
  have hg : GoodState (runOps c0 ops) := hg0.runOps ops
  have hfix := runOps_fixed c0 ops
  refine ⟨?_, ?_, fun a ha => (hg.1 a ha).2, fun r hr => (hg.2 r hr).2⟩
  · intro hmem
    exact (hg.1 _ hmem).1 hfix.1.symm
  · intro hmem
    exact (hg.2 _ hmem).1 hfix.2.1.symm

/-- Witness for C3 at a concrete constructed controller and operation list. -/
theorem C3_registration_invariant_witness :
    sampleController.stackAccount ∉
      (runOps sampleController sampleOps).registeredAccounts ∧
    sampleController.stackRegion ∉
      (runOps sampleController sampleOps).registeredRegions ∧
    (∀ a ∈ (runOps sampleController sampleOps).registeredAccounts,
      a.isUnresolved = false) ∧
    (∀ r ∈ (runOps sampleController sampleOps).registeredRegions,
      r.isUnresolved = false) :=
  C3_registration_invariant sampleScope "net-controller" sampleProps
    sampleController (by decide) sampleOps

/-- C8: the flow-log format is fixed at construction, and every hub created
by `addHub` and every spoke created by `addSpoke`, from any state reachable
from the constructed controller, carries the same default flow-log rule:
destination the controller's flow-log bucket, format the controller's
`flowLogFormat`. -/
theorem C8_default_flow_logs (scope0 : Scope) (id0 : String)
    (props : NetworkControllerProps) (c0 : NetworkController)
    (h0 : NetworkController.construct scope0 id0 props = .ok c0)
    (ops : List Op) (s : Scope) (i : String) :
    c0.flowLogFormat = props.flowLogFormat.getD .v5 ∧
    (∀ o hub c', (runOps c0 ops).addHub s i o = ⟨.ok hub, c'⟩ →
      hub.flowLogs = [("flow-log-default",
        ⟨FlowLogDestination.toS3 c0.flowLogBucket, c0.flowLogFormat⟩)]) ∧
    (∀ o sp c', (runOps c0 ops).addSpoke s i o = ⟨.ok sp, c'⟩ →
      sp.flowLogs = [("flow-log-default",
        ⟨FlowLogDestination.toS3 c0.flowLogBucket, c0.flowLogFormat⟩)]) := by
  have hfix := runOps_fixed c0 ops
  refine ⟨?_, ?_, ?_⟩
  · unfold NetworkController.construct at h0
    split_ifs at h0
    cases h0
    rfl
  · intro o hub c' h
    obtain ⟨-, -, -, -, -, hfl⟩ := addHub_ok_shape _ s i o hub c' h
    rw [hfl, hfix.2.2.1, hfix.2.2.2]
  · intro o sp c' h
    obtain ⟨hubv, -, -, hfl⟩ := addSpoke_ok_shape _ s i o sp c' h
    rw [hfl, hfix.2.2.1, hfix.2.2.2]

/-- Witness for C8 at a concrete hub creation. -/
theorem C8_default_flow_logs_witness :
    theHub.flowLogs = [("flow-log-default",
      ⟨FlowLogDestination.toS3 sampleController.flowLogBucket,
        sampleController.flowLogFormat⟩)] :=
  (C8_default_flow_logs sampleScope "net-controller" sampleProps
      sampleController (by decide) [] sampleHubScope "hub1").2.1
    noHubOptions theHub afterHub (by decide)
